import Mathlib

/-!
Verification of the Office template installer (TemplateInstaller20260112).

Shallow embedding of the author-validation, destination-classification,
install/uninstall and MRU bookkeeping logic of
`src/Python script/common.py`, `office_destination.py` and
`office_files.py`.

Modelling conventions:
* Paths are plain strings; `normalizePath` mirrors
  `normalize_path` (strip whitespace, strip trailing `/` and `\`);
  further `pathlib.Path` normalisation (separator rewriting,
  collapsing) is not modelled.
* A template file's content is abstracted to what the author check
  observes of the ZIP container: unreadable archive, readable with no
  `docProps/core.xml` part, or readable with an optional creator
  element (`ZipContent.core (some t)` represents a creator node whose
  text is truthy in Python, i.e. non-empty before stripping).
* The filesystem is an association list from path to content;
  `shutil.copy2` is modelled as overwrite-or-create and I/O errors are
  not modelled (the `except OSError` error paths are unreachable in
  the model).
* The registry MRU key is an association list from value name to
  string value; the per-Office-version / ADAL key fan-out of
  `_find_mru_paths` applies the identical rewrite to every discovered
  key, so the model tracks one representative key per application.
* Logging, design-mode flags and the folder-open flags of
  `InstallFlags` are elided; the counters dictionary
  `InstallFlags.totals` is kept.
-/

/-- ASCII `str.lower()`.  (A structural reimplementation of
`String.toLower`: the core version does not reduce definitionally.) -/
def strLower (s : String) : String := String.mk (s.data.map Char.toLower)

/-- ASCII `str.upper()`. -/
def strUpper (s : String) : String := String.mk (s.data.map Char.toUpper)

/-- `str.strip()` over ASCII whitespace, structurally. -/
def strTrim (s : String) : String :=
  String.mk
    (((s.data.dropWhile Char.isWhitespace).reverse.dropWhile
      Char.isWhitespace).reverse)

/-- Split a character list on a separator character, `str.split` style:
the result always has one more piece than there are separators. -/
def splitOnChar (sep : Char) : List Char → List (List Char)
  | [] => [[]]
  | c :: rest =>
      let r := splitOnChar sep rest
      if c == sep then [] :: r
      else
        match r with
        | [] => [[c]]
        | h :: t => (c :: h) :: t

/-- String version of `splitOnChar`. -/
def strSplitOnChar (sep : Char) (s : String) : List String :=
  (splitOnChar sep s.data).map String.mk

/-- `str.startswith`, structurally. -/
def strStartsWith (s p : String) : Bool := p.data.isPrefixOf s.data

/-- `str.endswith`, structurally. -/
def strEndsWith (s p : String) : Bool :=
  p.data.reverse.isPrefixOf s.data.reverse

/-- `sep.join`, structurally. -/
def strJoinSep (sep : String) : List String → String
  | [] => ""
  | [x] => x
  | x :: y :: rest => x ++ sep ++ strJoinSep sep (y :: rest)

/-- `str.strip().rstrip("\\/")` of `normalize_path` (common.py line 17). -/
def normalizePath (s : String) : String :=
  let t := strTrim s
  String.mk ((t.data.reverse.dropWhile (fun c => c == '/' || c == '\\')).reverse)

/-- Final path component, like `pathlib.Path.name` (both separators). -/
def pathName (s : String) : String :=
  ((strSplitOnChar '/' s).flatMap (fun t => strSplitOnChar '\\' t)).getLastD s

/-- Suffix of a single component, like `pathlib.PurePath.suffix`:
the substring from the last dot on, empty when the component has no
dot, starts with its only dot, or ends with a dot. -/
def nameSuffix (n : String) : String :=
  let parts := strSplitOnChar '.' n
  if parts.length < 2 then ""
  else if parts.getLastD "" = "" then ""
  else if parts.length = 2 && parts.headD "" = "" then ""
  else "." ++ parts.getLastD ""

/-- `Path(s).suffix` of a full path: suffix of the final component. -/
def pathSuffix (s : String) : String := nameSuffix (pathName s)

/-- `path.suffix.lower()`, the form every dispatch in the source uses. -/
def suffixLower (s : String) : String := strLower (pathSuffix s)

/-- `Path(s).stem`: final component without its suffix. -/
def pathStem (s : String) : String :=
  let n := pathName s
  n.dropRight (nameSuffix n).length

/-- Parent directory as a string (all components but the last). -/
def pathParent (s : String) : String :=
  let comps := strSplitOnChar '/' s
  if comps.length ≤ 1 then s else strJoinSep "/" comps.dropLast

/-- `SUPPORTED_TEMPLATE_EXTENSIONS` (common.py lines 235-243), as a list
in the order the source writes the set literal. -/
def SUPPORTED_TEMPLATE_EXTENSIONS : List String :=
  [".dotx", ".dotm", ".potx", ".potm", ".xltx", ".xltm", ".thmx"]

/-- `BASE_TEMPLATE_NAMES` (common.py lines 245-256). -/
def BASE_TEMPLATE_NAMES : List String :=
  ["Normal.dotx", "Normal.dotm", "NormalEmail.dotx", "NormalEmail.dotm",
   "Blank.potx", "Blank.potm", "Book.xltx", "Book.xltm",
   "Sheet.xltx", "Sheet.xltm"]

/-- `DEFAULT_ALLOWED_TEMPLATE_AUTHORS` (common.py lines 162-165). -/
def DEFAULT_ALLOWED_TEMPLATE_AUTHORS : List String :=
  ["www.grada.cc", "www.gradaz.com"]

/-- What `_extract_author` can observe of a template file's container:
the archive is unreadable, readable without `docProps/core.xml`, or
readable with that part, carrying an optional creator element.
`core (some t)` means a creator node whose text `t` is truthy in
Python (non-empty before `strip()`); a node with falsy text behaves
exactly like an absent node, which `core none` covers. -/
inductive ZipContent
  | notZip
  | noCore
  | core (creator : Option String)
deriving DecidableEq, Repr

/-- `AuthorCheckResult` (common.py lines 310-318). -/
structure AuthorCheckResult where
  allowed : Bool
  message : String
  authors : List String
  error : Bool := false
deriving DecidableEq, Repr

/-- `_extract_author` (common.py lines 386-404) on an existing file.
The existence branch is handled by the caller in the model (the
source re-checks `template_path.exists()`); `name` only feeds the
messages, where the unknowable exception text is a fixed stand-in. -/
def _extract_author (name : String) (c : ZipContent) :
    Option String × Option String :=
  match c with
  | .notZip => (none, some ("[ERROR] " ++ name ++ ": BadZipFile"))
  | .noCore =>
      (none, some ("[WARN] No se pudo obtener el autor para " ++ name
        ++ " (core.xml ausente)."))
  | .core none => (none, some ("[WARN] " ++ name ++ " sin autor definido."))
  | .core (some t) => (some (strTrim t), none)

/-- `_normalize_allowed_authors` (common.py lines 377-383). -/
def _normalize_allowed_authors : List String → List String
  | [] => []
  | a :: rest =>
      let cleaned := strTrim a
      if cleaned = "" then _normalize_allowed_authors rest
      else cleaned :: _normalize_allowed_authors rest

/-- The target handed to `check_template_author`: a missing path, an
existing directory (with its raw file listing, name and content per
file), or an existing single file. -/
inductive AuthorTarget
  | missing
  | dir (files : List (String × ZipContent))
  | file (name : String) (content : ZipContent)
deriving DecidableEq, Repr

/-- `iter_template_files` (common.py lines 269-271): one glob per
supported extension, in the order of `SUPPORTED_TEMPLATE_EXTENSIONS`
(glob matching is modelled case-sensitively). -/
def iter_template_files (files : List (String × ZipContent)) :
    List (String × ZipContent) :=
  SUPPORTED_TEMPLATE_EXTENSIONS.flatMap
    (fun ext => files.filter (fun f => strEndsWith f.1 ext))

/-- `check_template_author` (common.py lines 321-374).  Path text
inside messages is dropped; the message constants otherwise follow the
source. -/
def check_template_author (target : AuthorTarget)
    (allowed_authors : List String) (validation_enabled : Bool) :
    AuthorCheckResult :=
  let allowed := _normalize_allowed_authors
    (if allowed_authors.isEmpty then DEFAULT_ALLOWED_TEMPLATE_AUTHORS
     else allowed_authors)
  match target with
  | .missing =>
      { allowed := false, message := "[ERROR] No se encontró la ruta."
        authors := [], error := true }
  | .dir files =>
      let authors_found := (iter_template_files files).filterMap
        (fun f =>
          if suffixLower f.1 == ".thmx" then none
          else
            match _extract_author f.1 f.2 with
            | (some a, _) => if a == "" then none else some a
            | (none, _) => none)
      let message :=
        if authors_found.isEmpty then "[WARN] No se encontraron plantillas."
        else "[INFO] Autores listados para la carpeta."
      { allowed := true, message := message, authors := authors_found
        error := false }
  | .file name c =>
      if !validation_enabled then
        { allowed := true, message := "[INFO] Validación de autores deshabilitada."
          authors := [], error := false }
      else if suffixLower name == ".thmx" then
        { allowed := true, message := "[INFO] Validación de autor omitida para temas."
          authors := [], error := false }
      else
        match _extract_author name c with
        | (_, some err) =>
            { allowed := false, message := err, authors := [], error := true }
        | (author, none) =>
            if author == none || author == some "" then
              { allowed := false
                message := "[WARN] El archivo no tiene autor asignado."
                authors := [], error := false }
            else
              let a := author.getD ""
              let is_allowed := allowed.any (fun x => strLower a == strLower x)
              { allowed := is_allowed
                message := if is_allowed then "[OK] Autor aprobado."
                  else "[BLOCKED] Autor no permitido."
                authors := [a], error := false }

/-- The named template directories of `_resolve_template_paths`
(office_files.py lines 35-60) / `resolve_template_paths` (common.py
lines 956-965), abstracted to opaque directory strings. -/
structure TemplatePaths where
  THEME : String
  CUSTOM_WORD : String
  CUSTOM_PPT : String
  CUSTOM_EXCEL : String
  ROAMING : String
  EXCEL : String
deriving DecidableEq, Repr

/-- `resolve_destination_for_name` (office_destination.py lines 21-40). -/
def resolve_destination_for_name (name : String) (paths : TemplatePaths)
    (base_names : List String) : Option String :=
  let extension := strLower (nameSuffix name)
  if base_names.contains name
      && (strStartsWith name "Normal." || strStartsWith name "NormalEmail."
          || strStartsWith name "Blank.") then
    some paths.ROAMING
  else if base_names.contains name
      && (strStartsWith name "Book." || strStartsWith name "Sheet.") then
    some paths.EXCEL
  else if extension == ".dotx" || extension == ".dotm" then
    some paths.CUSTOM_WORD
  else if extension == ".potx" || extension == ".potm" then
    some paths.CUSTOM_PPT
  else if extension == ".xltx" || extension == ".xltm" then
    some paths.CUSTOM_EXCEL
  else if extension == ".thmx" then
    some paths.THEME
  else none

/-- `_destination_for_file` (office_files.py lines 63-77); the caller
passes `path.suffix.lower()` as `extension`, but the function itself
accepts any string there and never consults it on the base-name
branches. -/
def _destination_for_file (name extension : String) (paths : TemplatePaths) :
    Option String :=
  if BASE_TEMPLATE_NAMES.contains name
      && (strStartsWith name "Normal." || strStartsWith name "NormalEmail."
          || strStartsWith name "Blank.") then
    some paths.ROAMING
  else if BASE_TEMPLATE_NAMES.contains name
      && (strStartsWith name "Book." || strStartsWith name "Sheet.") then
    some paths.EXCEL
  else if extension == ".dotx" || extension == ".dotm" then
    some paths.CUSTOM_WORD
  else if extension == ".potx" || extension == ".potm" then
    some paths.CUSTOM_PPT
  else if extension == ".xltx" || extension == ".xltm" then
    some paths.CUSTOM_EXCEL
  else if extension == ".thmx" then
    some paths.THEME
  else none

/-- The destination dictionary built by `default_destinations`
(common.py lines 940-953), with its ten keys as fields. -/
structure Destinations where
  WORD : String
  POWERPOINT : String
  EXCEL : String
  CUSTOM : String
  CUSTOM_ALT : String
  WORD_CUSTOM : String
  POWERPOINT_CUSTOM : String
  EXCEL_CUSTOM : String
  ROAMING : String
  THEMES : String
deriving DecidableEq, Repr

/-- `destinations.values()` in the dictionary's insertion order
(common.py lines 942-952). -/
def Destinations.valuesList (d : Destinations) : List String :=
  [d.WORD, d.POWERPOINT, d.EXCEL, d.CUSTOM, d.CUSTOM_ALT, d.WORD_CUSTOM,
   d.POWERPOINT_CUSTOM, d.EXCEL_CUSTOM, d.ROAMING, d.THEMES]

/-- `_destination_for_extension` (common.py lines 1206-1215). -/
def _destination_for_extension (extension : String) (d : Destinations) :
    Option String :=
  if extension == ".dotx" || extension == ".dotm" then some d.WORD
  else if extension == ".potx" || extension == ".potm" then some d.POWERPOINT
  else if extension == ".xltx" || extension == ".xltm" then some d.EXCEL
  else if extension == ".thmx" then some d.THEMES
  else none

/-- The filesystem: an association list from path to file content. -/
abbrev FS := List (String × ZipContent)

/-- Lookup of a path in the filesystem. -/
def fsLookup : FS → String → Option ZipContent
  | [], _ => none
  | e :: rest, p => if e.1 = p then some e.2 else fsLookup rest p

/-- Existence check of a path. -/
def fsExists (fs : FS) (p : String) : Bool := (fsLookup fs p).isSome

/-- Overwrite-or-create, the observable effect of `shutil.copy2`. -/
def fsInsert : FS → String → ZipContent → FS
  | [], p, c => [(p, c)]
  | e :: rest, p, c =>
      if e.1 = p then (p, c) :: rest else e :: fsInsert rest p c

/-- `Path.unlink`: drop the path from the filesystem. -/
def fsRemove (fs : FS) (p : String) : FS := fs.filter (fun e => e.1 != p)

/-- A registry key's values: an association list from value name to
string data. -/
abbrev RegKey := List (String × String)

/-- `winreg.SetValueEx`: replace the named value or append it. -/
def regSetValue : RegKey → String → String → RegKey
  | [], n, v => [(n, v)]
  | e :: rest, n, v =>
      if e.1 = n then (n, v) :: rest else e :: regSetValue rest n v

/-- Lookup of a value by name in a registry key. -/
def regGetValue : RegKey → String → Option String
  | [], _ => none
  | e :: rest, n => if e.1 = n then some e.2 else regGetValue rest n

/-- `MRU_VALUE_PREFIX` (common.py line 172). -/
def MRU_VALUE_MARKER : String := "[F00000000][T01ED6D7E58D00000][O00000000]*"

/-- `_extract_mru_path` (common.py lines 1133-1139): split on `*`,
take the last piece, strip; empty results become `None`. -/
def _extract_mru_path (raw : String) : Option String :=
  if raw = "" then none
  else if (strSplitOnChar '*' raw).length > 1 then
    let candidate := (strSplitOnChar '*' raw).getLastD ""
    if strTrim candidate = "" then none else some (strTrim candidate)
  else if strTrim raw = "" then none else some (strTrim raw)

/-- The `existing_items` read loop of `_write_mru_entry` (common.py
lines 1090-1109): enumerate the key's values, skip `Item Metadata N`,
and collect the extracted path of every `Item N` string value. -/
def mruExistingItems (k : RegKey) : List String :=
  k.filterMap (fun e =>
    if strStartsWith e.1 "Item Metadata " then none
    else if strStartsWith e.1 "Item " then _extract_mru_path e.2
    else none)

/-- The rewritten entry list of `_write_mru_entry` (common.py lines
1110-1119): drop case-insensitive duplicates of the new path, put the
new path first, truncate to 10. -/
def mruNewEntries (k : RegKey) (full_path : String) : List String :=
  let filtered := (mruExistingItems k).filter
    (fun v => strLower full_path != strLower v)
  (full_path :: filtered).take 10

/-- The `Item Metadata N` XML blob written by `_write_mru_entry`
(common.py line 1125). -/
def metaBlobFor (entry basename : String) : String :=
  "<Metadata><AppSpecific><id>" ++ entry ++ "</id><nm>" ++ basename
    ++ "</nm><du>" ++ entry ++ "</du></AppSpecific></Metadata>"

/-- `_write_mru_entry` (common.py lines 1074-1130): read the existing
items, compute the new entry list and rewrite `Item 1..K` and their
metadata values.  The source never deletes pre-existing `Item N`
values with numbers beyond the rewritten range. -/
def _write_mru_entry (k : RegKey) (file_path : String) : RegKey :=
  let full_path := normalizePath file_path
  let basename := pathStem full_path
  let entries := mruNewEntries k full_path
  entries.enum.foldl
    (fun acc pair =>
      let item_name := "Item " ++ toString (pair.1 + 1)
      let meta_name := "Item Metadata " ++ toString (pair.1 + 1)
      regSetValue (regSetValue acc item_name ( MRU_VALUE_MARKER ++ pair.2))
        meta_name (metaBlobFor pair.2 basename))
    k

/-- The string data of every `Item N` (non-metadata) value of a key. -/
def mruItemValues (k : RegKey) : List String :=
  k.filterMap (fun e =>
    if strStartsWith e.1 "Item Metadata " then none
    else if strStartsWith e.1 "Item " then some e.2
    else none)

/-- How many `Item N` values of the key extract to the path `p`,
case-insensitively. -/
def mruPathOccurrences (k : RegKey) (p : String) : Nat :=
  (mruItemValues k).countP (fun v =>
    match _extract_mru_path v with
    | some q => strLower q == strLower p
    | none => false)

/-- `InstallFlags.totals` (common.py line 428). -/
structure Totals where
  files : Nat := 0
  errors : Nat := 0
  blocked : Nat := 0
deriving DecidableEq, Repr

/-- The mutable state an install run touches: the filesystem, one
representative `File MRU` key per application, and the counters. -/
structure InstallState where
  fs : FS := []
  wordMru : RegKey := []
  pptMru : RegKey := []
  excelMru : RegKey := []
  totals : Totals := {}
deriving DecidableEq, Repr

/-- `_app_registry_name` (common.py lines 1069-1071). -/
def _app_registry_name (app_label : String) : String :=
  if strUpper app_label == "WORD" then "Word"
  else if strUpper app_label == "POWERPOINT" then "PowerPoint"
  else if strUpper app_label == "EXCEL" then "Excel"
  else ""

/-- `update_mru_for_template` (common.py lines 1025-1036) on Windows
with the registry available: every key found by `_find_mru_paths`
receives the identical `_write_mru_entry`, modelled on the
representative key of the owning application. -/
def update_mru_for_template (app_label : String) (file_path : String)
    (st : InstallState) : InstallState :=
  if _app_registry_name app_label == "Word" then
    { st with wordMru := _write_mru_entry st.wordMru file_path }
  else if _app_registry_name app_label == "PowerPoint" then
    { st with pptMru := _write_mru_entry st.pptMru file_path }
  else if _app_registry_name app_label == "Excel" then
    { st with excelMru := _write_mru_entry st.excelMru file_path }
  else st

/-- `_should_update_mru` (common.py lines 829-836). -/
def _should_update_mru (path : String) : Bool :=
  let name := pathName path
  let ext := suffixLower path
  if BASE_TEMPLATE_NAMES.contains name then false
  else if ext == ".thmx" then false
  else true

/-- `_update_mru_if_applicable` (common.py lines 810-815). -/
def _update_mru_if_applicable (app_label destination : String)
    (st : InstallState) : InstallState :=
  if !_should_update_mru destination then st
  else if [".dotx", ".dotm", ".potx", ".potm", ".xltx", ".xltm"].contains
      (suffixLower destination) then
    update_mru_for_template app_label destination st
  else st

/-- `_update_mru_if_applicable_extension` (common.py lines 818-826). -/
def _update_mru_if_applicable_extension (extension destination : String)
    (st : InstallState) : InstallState :=
  if !_should_update_mru destination then st
  else
    let st1 := if extension == ".dotx" || extension == ".dotm" then
      update_mru_for_template "WORD" destination st else st
    let st2 := if extension == ".potx" || extension == ".potm" then
      update_mru_for_template "POWERPOINT" destination st1 else st1
    if extension == ".xltx" || extension == ".xltm" then
      update_mru_for_template "EXCEL" destination st2 else st2

/-- `backup_existing` (common.py lines 732-750): no-op when the target
is absent, otherwise copy it to `Backups/<timestamp> - <name>` beside
it.  The timestamp is a parameter; backup I/O failures are not
modelled. -/
def backup_existing (fs : FS) (target : String) (ts : String) : FS :=
  match fsLookup fs target with
  | none => fs
  | some c =>
      fsInsert fs (pathParent target ++ "/Backups/" ++ ts ++ " - "
        ++ pathName target) c

/-- `install_template` (common.py lines 431-495).  The folder-open
flag bookkeeping after the copy (lines 467, 474-495) only feeds the
process-launch wrappers and is elided; counters, filesystem and MRU
effects are kept.  The copy cannot fail in the model, so the
`except OSError` arm (lines 469-471) is unreachable. -/
def install_template (app_label filename : String)
    (source_root destination_root : String)
    (allowed_authors : List String) (validation_enabled : Bool)
    (ts : String) (st : InstallState) : InstallState :=
  let source := normalizePath (source_root ++ "/" ++ filename)
  let destRoot := normalizePath destination_root
  let destination := destRoot ++ "/" ++ filename
  match fsLookup st.fs source with
  | none =>
      { st with totals := { st.totals with errors := st.totals.errors + 1 } }
  | some content =>
      let author_check := check_template_author (.file filename content)
        allowed_authors validation_enabled
      if !author_check.allowed then
        { st with totals :=
            { st.totals with blocked := st.totals.blocked + 1 } }
      else
        let fs1 := backup_existing st.fs destination ts
        let fs2 := fsInsert fs1 destination content
        let st1 := { st with fs := fs2
                             totals := { st.totals with
                               files := st.totals.files + 1 } }
        _update_mru_if_applicable app_label destination st1

/-- The body of the `copy_custom_templates` loop (common.py lines
499-567) for one payload file, given as a (filename, content) pair.
The folder-open flag updates (lines 530, 545-567) are elided; note
the source takes no backup on the custom path. -/
def copy_custom_step (d : Destinations) (allowed : List String)
    (validation_enabled : Bool) (st : InstallState)
    (file : String × ZipContent) : InstallState :=
  let filename := file.1
  let extension := suffixLower filename
  if BASE_TEMPLATE_NAMES.contains filename then st
  else
    let destination_root : Option String :=
      if extension == ".xltx" || extension == ".xltm" then
        some d.EXCEL_CUSTOM
      else if extension == ".dotx" || extension == ".dotm" then
        some d.WORD_CUSTOM
      else if extension == ".potx" || extension == ".potm" then
        some d.POWERPOINT_CUSTOM
      else _destination_for_extension extension d
    match destination_root with
    | none => st
    | some root =>
        let result := check_template_author (.file filename file.2)
          allowed validation_enabled
        if !result.allowed then
          { st with totals :=
              { st.totals with blocked := st.totals.blocked + 1 } }
        else
          let dest := root ++ "/" ++ filename
          let st1 := { st with fs := fsInsert st.fs dest file.2
                               totals := { st.totals with
                                 files := st.totals.files + 1 } }
          _update_mru_if_applicable_extension extension dest st1

/-- `copy_custom_templates` (common.py lines 498-567): fold the loop
body over the payload's template files. -/
def copy_custom_templates (payload : List (String × ZipContent))
    (d : Destinations) (allowed : List String) (validation_enabled : Bool)
    (st : InstallState) : InstallState :=
  (iter_template_files payload).foldl
    (copy_custom_step d allowed validation_enabled) st

/-- Insertion into a Python dict: replace the value of an existing key
or append the pair. -/
def dictInsert (m : List (String × List String)) (k : String)
    (v : List String) : List (String × List String) :=
  if m.any (fun e => e.1 == k) then
    m.map (fun e => if e.1 = k then (k, v) else e)
  else m ++ [(k, v)]

/-- The `targets` dict literal of `remove_installed_templates`
(common.py lines 571-576), built with dict semantics: when two
destination paths coincide (e.g. WORD and POWERPOINT both resolve to
ROAMING), the later file list replaces the earlier one. -/
def removeTargets (d : Destinations) : List (String × List String) :=
  dictInsert
    (dictInsert
      (dictInsert
        (dictInsert []
          d.WORD ["Normal.dotx", "Normal.dotm", "NormalEmail.dotx",
                  "NormalEmail.dotm"])
        d.POWERPOINT ["Blank.potx", "Blank.potm"])
      d.EXCEL ["Book.xltx", "Book.xltm", "Sheet.xltx", "Sheet.xltm"])
    d.THEMES []

/-- One iteration of the inner loop of `remove_installed_templates`
(common.py lines 579-607): skip when the target is absent, otherwise
back it up, delete it and record a failure if it persists (it never
does in the model, where unlink cannot fail). -/
def remove_step (ts : String) (root : String) (acc : FS × List String)
    (name : String) : FS × List String :=
  let target := normalizePath (root ++ "/" ++ name)
  if fsExists acc.1 target then
    let fs1 := backup_existing acc.1 target ts
    let fs2 := fsRemove fs1 target
    if fsExists fs2 target then (fs2, acc.2 ++ [target]) else (fs2, acc.2)
  else acc

/-- `remove_installed_templates` (common.py lines 570-616), returning
the final filesystem and the `failures` list. -/
def remove_installed_templates (d : Destinations) (ts : String) (fs : FS) :
    FS × List String :=
  (removeTargets d).foldl
    (fun acc pair => pair.2.foldl (remove_step ts pair.1) acc) (fs, [])

/-- `delete_custom_copies` (common.py lines 644-657): for every
non-base payload file, delete a same-named file under every known
destination.  The second component records the deleted paths (a ghost
observable the source only logs). -/
def delete_custom_copies (payload : List (String × ZipContent))
    (d : Destinations) (fs : FS) : FS × List String :=
  (iter_template_files payload).foldl
    (fun acc file =>
      if BASE_TEMPLATE_NAMES.contains file.1 then acc
      else
        d.valuesList.foldl
          (fun acc dest =>
            let candidate := normalizePath (dest ++ "/" ++ file.1)
            if fsExists acc.1 candidate then
              (fsRemove acc.1 candidate, acc.2 ++ [candidate])
            else acc)
          acc)
    (fs, [])

/-- The authors a directory scan reports, written from the spec's
words: the author extracted from each non-theme supported-extension
file in the directory, kept when one was found.  Compared against the
`authors` field `check_template_author` computes. -/
def dirAuthorsSpec (files : List (String × ZipContent)) : List String :=
  (iter_template_files files).filterMap
    (fun f =>
      if suffixLower f.1 == ".thmx" then none
      else
        match _extract_author f.1 f.2 with
        | (some a, _) => if a == "" then none else some a
        | (none, _) => none)

lemma normalize_allowed_nil {auth : List String}
    (h : ∀ s ∈ auth, strTrim s = "") : _normalize_allowed_authors auth = [] := by
  induction auth with
  | nil => rfl
  | cons a rest ih =>
      have ha : strTrim a = "" := h a (List.mem_cons_self a rest)
      have hr : ∀ s ∈ rest, strTrim s = "" :=
        fun s hs => h s (List.mem_cons_of_mem a hs)
      simp [_normalize_allowed_authors, ha, ih hr]

lemma fsLookup_fsInsert_self (fs : FS) (p : String) (c : ZipContent) :
    fsLookup (fsInsert fs p c) p = some c := by
  induction fs with
  | nil => simp [fsInsert, fsLookup]
  | cons e rest ih =>
      by_cases h : e.1 = p
      · simp [fsInsert, fsLookup, h]
      · simp [fsInsert, fsLookup, h, ih]

lemma foldl_fixed {α β : Type} (f : α → β → α) (l : List β) (a : α)
    (h : ∀ b ∈ l, f a b = a) : l.foldl f a = a := by
  induction l with
  | nil => rfl
  | cons b rest ih =>
      rw [List.foldl_cons, h b (List.mem_cons_self b rest)]
      exact ih (fun x hx => h x (List.mem_cons_of_mem b hx))

/-- C3: for every filename in BaseTemplateNames the destination
classifier returns ROAMING for the Word/PowerPoint base names
(`Normal.*`, `NormalEmail.*`, `Blank.*`) and the Excel startup folder
for the Excel base names (`Book.*`, `Sheet.*`), and the result does
not depend on the extension argument at all — in particular not on
its casing. -/
theorem c3_base_names_classified (paths : TemplatePaths) (name : String)
    (h : name ∈ BASE_TEMPLATE_NAMES) (extension : String) :
    _destination_for_file name extension paths
      = some (if strStartsWith name "Book." || strStartsWith name "Sheet."
          then paths.EXCEL else paths.ROAMING)
    ∧ resolve_destination_for_name name paths BASE_TEMPLATE_NAMES
      = some (if strStartsWith name "Book." || strStartsWith name "Sheet."
          then paths.EXCEL else paths.ROAMING) := by
  fin_cases h <;> exact ⟨rfl, rfl⟩

/-- Witness for C3 at `Book.xltx` with an upper-cased extension. -/
theorem c3_base_names_classified_witness :
    "Book.xltx" ∈ BASE_TEMPLATE_NAMES ∧
    _destination_for_file "Book.xltx" ".XLTX"
      ⟨"T", "CW", "CP", "CE", "R", "E"⟩ = some "E" :=
  ⟨by decide,
    (c3_base_names_classified ⟨"T", "CW", "CP", "CE", "R", "E"⟩
      "Book.xltx" (by decide) ".XLTX").1⟩

/-- C7: a directory scan always reports `allowed=true` and
`error=false`, for every allowlist, every `validation_enabled` value
and whatever the contained files hold, and its `authors` list is
exactly the non-empty authors extracted from the directory's
non-theme supported-extension files. -/
theorem c7_directory_scan_always_allowed
    (files : List (String × ZipContent)) (auth : List String)
    (validation_enabled : Bool) :
    (check_template_author (.dir files) auth validation_enabled).allowed = true
    ∧ (check_template_author (.dir files) auth validation_enabled).error = false
    ∧ (check_template_author (.dir files) auth validation_enabled).authors
        = dirAuthorsSpec files :=
  ⟨rfl, rfl, rfl⟩

/-- C8: an existing `.thmx` file is always `allowed=true`, for every
`validation_enabled` value and whatever its archive content is. -/
theorem c8_theme_always_allowed (name : String) (c : ZipContent)
    (auth : List String) (validation_enabled : Bool)
    (h : suffixLower name = ".thmx") :
    (check_template_author (.file name c) auth validation_enabled).allowed
      = true := by
  cases validation_enabled with
  | false => rfl
  | true => simp [check_template_author, h]

/-- Witness for C8 at a concrete unreadable theme file. -/
theorem c8_theme_always_allowed_witness :
    (check_template_author (.file "dark.thmx" .notZip) [] true).allowed
      = true :=
  c8_theme_always_allowed "dark.thmx" .notZip [] true (by decide)

/-- C9: every result of `check_template_author` with `error = true`
has `allowed = false`. -/
theorem c9_error_implies_not_allowed (t : AuthorTarget)
    (auth : List String) (validation_enabled : Bool)
    (h : (check_template_author t auth validation_enabled).error = true) :
    (check_template_author t auth validation_enabled).allowed = false := by
  cases t with
  | missing => rfl
  | dir files => simp [check_template_author] at h
  | file name c =>
      cases validation_enabled with
      | false => simp [check_template_author] at h
      | true =>
          by_cases hth : suffixLower name = ".thmx"
          · simp [check_template_author, hth] at h
          · cases c with
            | notZip => simp [check_template_author, _extract_author, hth]
            | noCore => simp [check_template_author, _extract_author, hth]
            | core creator =>
                cases creator with
                | none => simp [check_template_author, _extract_author, hth]
                | some t =>
                    by_cases ht : strTrim t = "" <;>
                      simp [check_template_author, _extract_author, hth, ht] at h

/-- Witness for C9 at a missing target. -/
theorem c9_error_implies_not_allowed_witness :
    (check_template_author .missing [] true).allowed = false :=
  c9_error_implies_not_allowed .missing [] true rfl

/-- C2 counterexample: a readable ZIP with a `docProps/core.xml` part
but no non-empty creator element.  The claim says `allowed=false` and
`error=false`; the code returns `error=true`, because
`_extract_author` reports the absent creator as a warning message and
`check_template_author` turns any such message into an error result. -/
theorem c2_counterexample :
    (check_template_author (.file "custom.dotx" (.core none)) [] true).allowed
      = false
    ∧ (check_template_author (.file "custom.dotx" (.core none)) [] true).error
      = true :=
  ⟨rfl, rfl⟩

/-- C2 amended: for a single-file target (validation enabled,
non-theme) whose archive holds `docProps/core.xml`, a missing or empty
creator element yields `allowed=false` with `error=true`; only a
creator element whose text is non-empty but strips to empty
(whitespace-only) yields the "no author assigned" result with
`allowed=false` and `error=false`. -/
theorem c2_no_author_result (name : String) (auth : List String)
    (hth : suffixLower name ≠ ".thmx") :
    ((check_template_author (.file name (.core none)) auth true).allowed = false
      ∧ (check_template_author (.file name (.core none)) auth true).error = true)
    ∧ ∀ w : String, w ≠ "" → strTrim w = "" →
        (check_template_author (.file name (.core (some w))) auth true).allowed
            = false
        ∧ (check_template_author (.file name (.core (some w))) auth true).error
            = false := by
  constructor
  · constructor <;> simp [check_template_author, _extract_author, hth]
  · intro w hw hwt
    constructor <;> simp [check_template_author, _extract_author, hth, hwt]

/-- Witness for C2's amended statement at `custom.dotx` with a
whitespace-only creator. -/
theorem c2_no_author_result_witness :
    (check_template_author (.file "custom.dotx" (.core (some " "))) [] true).error
      = false :=
  ((c2_no_author_result "custom.dotx" [] (by decide)).2 " " (by decide)
    (by decide)).2

/-- C10 counterexample: an allowlist containing only a whitespace
string does not behave like the default allowlist — it blocks the
default-allowed author `www.grada.cc`. -/
theorem c10_counterexample :
    (check_template_author (.file "t.dotx" (.core (some "www.grada.cc")))
      [" "] true).allowed = false
    ∧ (check_template_author (.file "t.dotx" (.core (some "www.grada.cc")))
        DEFAULT_ALLOWED_TEMPLATE_AUTHORS true).allowed = true :=
  ⟨rfl, rfl⟩

/-- C10 amended: an empty allowlist collection falls back to the
default two-entry allowlist, but a non-empty collection containing
only whitespace/empty strings normalizes to an empty allowlist and
blocks every author. -/
theorem c10_empty_allowlist_fallback :
    (∀ (t : AuthorTarget) (validation_enabled : Bool),
        check_template_author t [] validation_enabled
          = check_template_author t DEFAULT_ALLOWED_TEMPLATE_AUTHORS
              validation_enabled)
    ∧ ∀ (auth : List String), auth ≠ [] → (∀ s ∈ auth, strTrim s = "") →
        ∀ (name w : String), suffixLower name ≠ ".thmx" → strTrim w ≠ "" →
          (check_template_author (.file name (.core (some w))) auth true).allowed
            = false := by
  constructor
  · intro t validation_enabled
    cases t <;> rfl
  · intro auth hne hws name w hth hwt
    obtain ⟨a, rest, rfl⟩ := List.exists_cons_of_ne_nil hne
    simp [check_template_author, _extract_author, hth, hwt,
      normalize_allowed_nil hws]

/-- Witness for C10's amended statement: the empty-list fallback at a
missing target, and the whitespace-only list blocking a real author. -/
theorem c10_empty_allowlist_fallback_witness :
    check_template_author .missing [] true
        = check_template_author .missing DEFAULT_ALLOWED_TEMPLATE_AUTHORS true
    ∧ (check_template_author (.file "t.dotx" (.core (some "www.grada.cc")))
        [" "] true).allowed = false :=
  ⟨c10_empty_allowlist_fallback.1 .missing true,
    c10_empty_allowlist_fallback.2 [" "] (by decide) (by decide)
      "t.dotx" "www.grada.cc" (by decide) (by decide)⟩

/-- C4 counterexample: from a prior key whose only value is
`Item 2` holding path P, writing P leaves the stale `Item 2` in place
(`_write_mru_entry` never deletes items beyond the rewritten range),
so P occurs twice among the key's `Item N` extracted paths, not
exactly once as the claim states. -/
theorem c4_counterexample :
    mruPathOccurrences
        (_write_mru_entry [("Item 2", MRU_VALUE_MARKER ++ "C:/T/x.dotx")]
          "C:/T/x.dotx")
        "C:/T/x.dotx" = 2
    ∧ regGetValue
        (_write_mru_entry [("Item 2", MRU_VALUE_MARKER ++ "C:/T/x.dotx")]
          "C:/T/x.dotx")
        "Item 1" = some ( MRU_VALUE_MARKER ++ "C:/T/x.dotx") := by
  constructor <;> rfl

/-- C4 amended: the entry list the MRU write actually rewrites
(`Item 1..K`) has at most 10 entries, starts with the new path, and
contains the new path exactly once case-insensitively; stale `Item N`
values numbered beyond K are left untouched by `_write_mru_entry` and
may duplicate the path or push the key's total above 10. -/
theorem c4_mru_rewrite_bounded (k : RegKey) (p : String) :
    (mruNewEntries k p).length ≤ 10
    ∧ (mruNewEntries k p).head? = some p
    ∧ (mruNewEntries k p).countP (fun v => strLower p == strLower v) = 1 := by
  refine ⟨List.length_take_le _ _, rfl, ?_⟩
  show ((p :: (mruExistingItems k).filter
      (fun v => strLower p != strLower v)).take 10).countP
      (fun v => strLower p == strLower v) = 1
  rw [List.take_succ_cons, List.countP_cons]
  have h0 : List.countP (fun v => strLower p == strLower v)
      (((mruExistingItems k).filter
        (fun v => strLower p != strLower v)).take 9) = 0 := by
    rw [List.countP_eq_zero]
    intro a ha
    have hmem : a ∈ (mruExistingItems k).filter
        (fun v => strLower p != strLower v) := List.take_subset _ _ ha
    have hne := (List.mem_filter.mp hmem).2
    simp only [bne, Bool.not_eq_true'] at hne
    simp [hne]
  simp [h0]

/-- C1 counterexample: a payload `Normal.dotx` with creator
`www.grada.cc` is copied to the roaming destination, but the Word MRU
list is left empty — `_should_update_mru` excludes base template
names, so no `Item 1` pointing at the destination exists, contrary to
the claim. -/
theorem c1_counterexample :
    fsLookup
        (install_template "WORD" "Normal.dotx" "payload"
          "C:/Roaming/Templates" [] true "2026.01.01.0000"
          { fs := [("payload/Normal.dotx",
              ZipContent.core (some "www.grada.cc"))] }).fs
        "C:/Roaming/Templates/Normal.dotx"
      = some (ZipContent.core (some "www.grada.cc"))
    ∧ regGetValue
        (install_template "WORD" "Normal.dotx" "payload"
          "C:/Roaming/Templates" [] true "2026.01.01.0000"
          { fs := [("payload/Normal.dotx",
              ZipContent.core (some "www.grada.cc"))] }).wordMru
        "Item 1" = none := by
  constructor <;> rfl

/-- C1 amended: installing a payload `Normal.dotx` whose creator is
`www.grada.cc` with app label WORD copies it to the destination root
and increments the files counter, but performs no MRU update at all:
the Word MRU key is unchanged, because `Normal.dotx` is a base
template name and `_should_update_mru` excludes it. -/
theorem c1_install_normal_copies_without_mru (st : InstallState)
    (sroot droot ts : String)
    (hsrc : fsLookup st.fs (normalizePath (sroot ++ "/" ++ "Normal.dotx"))
      = some (ZipContent.core (some "www.grada.cc")))
    (hname : pathName (normalizePath droot ++ "/" ++ "Normal.dotx")
      = "Normal.dotx") :
    fsLookup (install_template "WORD" "Normal.dotx" sroot droot [] true ts
        st).fs (normalizePath droot ++ "/" ++ "Normal.dotx")
      = some (ZipContent.core (some "www.grada.cc"))
    ∧ (install_template "WORD" "Normal.dotx" sroot droot [] true ts
        st).wordMru = st.wordMru
    ∧ (install_template "WORD" "Normal.dotx" sroot droot [] true ts
        st).totals.files = st.totals.files + 1 := by
  have hchk : (check_template_author
      (.file "Normal.dotx" (ZipContent.core (some "www.grada.cc")))
      [] true).allowed = true := rfl
  have hshould : _should_update_mru
      (normalizePath droot ++ "/" ++ "Normal.dotx") = false := by
    simp only [_should_update_mru, hname]
    rfl
  have hmru : ∀ st1 : InstallState, _update_mru_if_applicable "WORD"
      (normalizePath droot ++ "/" ++ "Normal.dotx") st1 = st1 := by
    intro st1
    simp [_update_mru_if_applicable, hshould]
  simp [install_template, hsrc, hchk, hmru, fsLookup_fsInsert_self]

/-- Witness for C1's amended statement with a concrete prior state. -/
theorem c1_install_normal_copies_without_mru_witness :
    fsLookup (install_template "WORD" "Normal.dotx" "payload"
        "C:/Roaming/Templates" [] true "2026.01.01.0000"
        { fs := [("payload/Normal.dotx",
            ZipContent.core (some "www.grada.cc"))],
          wordMru := [("Item 1", "old")] }).fs
      (normalizePath "C:/Roaming/Templates" ++ "/" ++ "Normal.dotx")
      = some (ZipContent.core (some "www.grada.cc"))
    ∧ (install_template "WORD" "Normal.dotx" "payload"
        "C:/Roaming/Templates" [] true "2026.01.01.0000"
        { fs := [("payload/Normal.dotx",
            ZipContent.core (some "www.grada.cc"))],
          wordMru := [("Item 1", "old")] }).wordMru
      = [("Item 1", "old")]
    ∧ (install_template "WORD" "Normal.dotx" "payload"
        "C:/Roaming/Templates" [] true "2026.01.01.0000"
        { fs := [("payload/Normal.dotx",
            ZipContent.core (some "www.grada.cc"))],
          wordMru := [("Item 1", "old")] }).totals.files = 0 + 1 :=
  c1_install_normal_copies_without_mru
    { fs := [("payload/Normal.dotx", ZipContent.core (some "www.grada.cc"))],
      wordMru := [("Item 1", "old")] }
    "payload" "C:/Roaming/Templates" "2026.01.01.0000" (by decide) (by decide)

/-- C5: a custom (non-base-name) supported template file whose author
check is not allowed is not copied: the `copy_custom_templates` loop
body only increments the blocked counter, leaving the filesystem, the
MRU keys and the files/errors counters untouched. -/
theorem c5_blocked_custom_not_copied (d : Destinations)
    (auth : List String) (validation_enabled : Bool) (st : InstallState)
    (name : String) (c : ZipContent)
    (hsupp : suffixLower name ∈ SUPPORTED_TEMPLATE_EXTENSIONS)
    (hbase : BASE_TEMPLATE_NAMES.contains name = false)
    (hblocked : (check_template_author (.file name c) auth
      validation_enabled).allowed = false) :
    copy_custom_step d auth validation_enabled st (name, c)
      = { st with totals :=
          { st.totals with blocked := st.totals.blocked + 1 } } := by
  have hbase' : name ∉ BASE_TEMPLATE_NAMES := by simpa using hbase
  cases validation_enabled with
  | false => exact absurd hblocked (by simp [check_template_author])
  | true =>
      by_cases hth : suffixLower name = ".thmx"
      · exact absurd hblocked (by simp [check_template_author, hth])
      · simp only [SUPPORTED_TEMPLATE_EXTENSIONS, List.mem_cons,
          List.not_mem_nil, or_false] at hsupp
        rcases hsupp with h|h|h|h|h|h|h
        all_goals first
          | exact absurd h hth
          | simp [copy_custom_step, h, hbase', hblocked]

/-- Witness for C5 at a concrete blocked author. -/
theorem c5_blocked_custom_not_copied_witness :
    copy_custom_step ⟨"W", "P", "E", "C", "CA", "WC", "PC", "EC", "R", "T"⟩
        [] true {} ("custom.dotx", ZipContent.core (some "evil.com"))
      = { totals := { blocked := 1 } } :=
  c5_blocked_custom_not_copied
    ⟨"W", "P", "E", "C", "CA", "WC", "PC", "EC", "R", "T"⟩ [] true {}
    "custom.dotx" (ZipContent.core (some "evil.com"))
    (by decide) (by decide) (by decide)

/-- C6: when no matching file is present (the state a clean first
uninstall run leaves behind), a further `remove_installed_templates`
performs no deletion and records no failures, and a further
`delete_custom_copies` deletes nothing — the filesystem is returned
unchanged by both. -/
theorem c6_uninstall_idempotent (d : Destinations)
    (payload : List (String × ZipContent)) (fs : FS) (ts : String)
    (h1 : ∀ pair ∈ removeTargets d, ∀ n ∈ pair.2,
      fsExists fs (normalizePath (pair.1 ++ "/" ++ n)) = false)
    (h2 : ∀ f ∈ iter_template_files payload,
      BASE_TEMPLATE_NAMES.contains f.1 = false →
        ∀ dest ∈ d.valuesList,
          fsExists fs (normalizePath (dest ++ "/" ++ f.1)) = false) :
    remove_installed_templates d ts fs = (fs, [])
    ∧ delete_custom_copies payload d fs = (fs, []) := by
  constructor
  · unfold remove_installed_templates
    apply foldl_fixed
    intro pair hpair
    apply foldl_fixed
    intro n hn
    simp [remove_step, h1 pair hpair n hn]
  · unfold delete_custom_copies
    apply foldl_fixed
    intro f hf
    by_cases hb : BASE_TEMPLATE_NAMES.contains f.1 = true
    · have hmem : f.1 ∈ BASE_TEMPLATE_NAMES := by simpa using hb
      simp [hmem]
    · have hb' : BASE_TEMPLATE_NAMES.contains f.1 = false := by
        simpa using hb
      simp only [hb', Bool.false_eq_true, if_false]
      apply foldl_fixed
      intro dest hdest
      simp [h2 f hf hb' dest hdest]

/-- Witness for C6: a destination set and payload with no matching
files in a filesystem holding one unrelated file. -/
theorem c6_uninstall_idempotent_witness :
    remove_installed_templates
        ⟨"W", "P", "E", "C", "CA", "WC", "PC", "EC", "R", "T"⟩ "ts"
        [("keep/other.dotx", ZipContent.notZip)]
      = ([("keep/other.dotx", ZipContent.notZip)], [])
    ∧ delete_custom_copies [("custom.dotx", ZipContent.noCore)]
        ⟨"W", "P", "E", "C", "CA", "WC", "PC", "EC", "R", "T"⟩
        [("keep/other.dotx", ZipContent.notZip)]
      = ([("keep/other.dotx", ZipContent.notZip)], []) :=
  c6_uninstall_idempotent
    ⟨"W", "P", "E", "C", "CA", "WC", "PC", "EC", "R", "T"⟩
    [("custom.dotx", ZipContent.noCore)]
    [("keep/other.dotx", ZipContent.notZip)] "ts"
    (by decide) (by decide)
